import Mathlib

/-!
Verification of the NVDA secure-desktop continuity subsystem
(`source/_remoteClient/secureDesktop.py`) and of the extension-point
handler registrar (`source/extensionPoints/util.py`).

The Python code is shallowly embedded: each method of
`SecureDesktopHandler` becomes a pure Lean function from the handler
state (the `self` attributes the method reads and writes) and an
environment record (the results of the OS and collaborator calls the
method makes) to the updated state together with a trace of the
externally visible actions the method performs, in program order.
Python exceptions that the source catches are internal control flow of
the embedded function; the embedded functions are total, which models
the fact that no exception escapes these methods on the modelled paths.
-/

/-- Connection role, from `_remoteClient.connectionInfo.ConnectionMode`. -/
inductive ConnectionMode where
  | leader
  | follower
deriving DecidableEq, Repr

/-- Connection record, from `_remoteClient.connectionInfo.ConnectionInfo` as
constructed at the only call site in `initializeSecureDesktop`
(hostname "127.0.0.1", mode FOLLOWER, key, port, insecure=True). -/
structure ConnectionInfo where
  hostname : String
  mode : ConnectionMode
  key : String
  port : Nat
  insecure : Bool
deriving DecidableEq, Repr

/-- A follower session as seen by `SecureDesktopHandler`: an identity
(Python object identity, used by the `==` comparison in the
`followerSession` setter) and an optional transport.  The transport is
identified by a number; only its presence matters here. -/
structure FollowerSession where
  sid : Nat
  transport : Option Nat
deriving DecidableEq, Repr

/-- The mutable attributes of `SecureDesktopHandler` that the transition
methods read and write.  Handles and addresses are numbers; `eventSet`
is the signalled state of the named IPC event. -/
structure HandlerState where
  mapFile : Option Nat
  bufferAddress : Option Nat
  followerSession : Option FollowerSession
  sdServer : Option Nat
  sdRelay : Option Nat
  sdBridge : Option Nat
  eventSet : Bool
deriving DecidableEq, Repr

/-- Handler state right after `SecureDesktopHandler.__init__`:
`_mapFile`, `_bufferAddress`, `_followerSession`, `sdServer`, `sdRelay`
and `sdBridge` are all `None`, and the IPC event is created unsignalled
(`CreateEvent(None, False, False, ...)` with `bInitialState = False`). -/
def initialHandlerState : HandlerState :=
  { mapFile := none
    bufferAddress := none
    followerSession := none
    sdServer := none
    sdRelay := none
    sdBridge := none
    eventSet := false }

/-- Externally visible actions performed by the `SecureDesktopHandler`
methods, in program order.  Boolean arguments record the success of the
corresponding OS call; `writePayload complete` records the attempt to
store the handshake payload in the shared buffer, `complete = true`
meaning the payload together with its terminating null was fully
written. -/
inductive SDAction where
  | createFileMapping (ok : Bool)
  | mapViewOfFile (ok : Bool)
  | startRelayServer (port : Nat)
  | writePayload (complete : Bool)
  | startServerThread
  | createRelayTransport
  | registerRelayInbound
  | registerFollowerInbound (sid : Nat)
  | createBridge
  | startRelayThread
  | setIpcEvent
  | resetIpcEvent
  | unmapView
  | closeMapHandle
  | disconnectBridge
  | closeServer
  | closeRelay
  | unregisterFollowerInbound (sid : Nat)
  | setDisplaySize
deriving DecidableEq, Repr

/-- `_IPC_MAXLEN`: maximum length of IPC data, in characters. -/
def IPC_MAXLEN : Nat := 64

/-- Length of the decimal representation of `n`, with enough fuel to
terminate structurally (`str(n)` in Python; the integer part of
`json.dumps`). -/
def decLenAux : Nat → Nat → Nat
  | 0, _ => 1
  | fuel + 1, n => if n < 10 then 1 else 1 + decLenAux fuel (n / 10)

/-- Number of characters `json.dumps` emits for the integer `n`. -/
def decLen (n : Nat) : Nat :=
  decLenAux n n

/-- Number of characters `json.dumps` (with its default
`ensure_ascii=True`) emits for one character of a string: quotes and
backslashes become two-character escapes, the short control escapes
(\b \t \n \f \r) are two characters, other control characters and all
non-ASCII characters below 0x10000 become a six-character \uXXXX
escape, characters at or above 0x10000 become a surrogate pair of two
such escapes, and every other printable ASCII character stands for
itself. -/
def jsonEncodedCharLen (c : Char) : Nat :=
  if c = '"' ∨ c = '\\' then 2
  else if c.toNat = 8 ∨ c.toNat = 9 ∨ c.toNat = 10 ∨ c.toNat = 12 ∨ c.toNat = 13 then 2
  else if c.toNat < 32 then 6
  else if c.toNat < 127 then 1
  else if c.toNat < 65536 then 6
  else 12

/-- Number of characters `json.dumps` emits for the string `s`,
including the surrounding quotes. -/
def jsonStringLen (s : String) : Nat :=
  2 + (s.data.map jsonEncodedCharLen).sum

/-- Length in characters of `json.dumps([port, channel])`: an opening
bracket, the decimal port, the two-character ", " separator, the quoted
channel, and a closing bracket.  The output is pure ASCII, so its
Python length equals the number of WCHAR units stored in the shared
buffer. -/
def handshakePayloadLen (port : Nat) (channel : String) : Nat :=
  1 + decLen port + 2 + jsonStringLen channel + 1

/-- Environment of one `enterSecureDesktop` call: outcomes of the OS
calls the method makes and the values produced by its collaborators
(the OS-assigned relay port from `getsockname`, and the channel from
`str(uuid.uuid4())`). -/
structure EnterEnv where
  createFileMappingOk : Bool
  mapViewOk : Bool
  mapHandle : Nat
  viewAddress : Nat
  serverPort : Nat
  channel : String
  setEventOk : Bool
deriving Repr

/-- `SecureDesktopHandler.enterSecureDesktop`.  Returns early when no
follower session with a live transport is attached, when
`CreateFileMapping` fails, or when `MapViewOfFile` fails (closing the
fresh mapping handle).  Otherwise it starts the local relay server,
attempts to write `json.dumps([port, channel])` into the 64-character
shared buffer; if the encoded payload cannot be stored together with a
terminating null (length at least `_IPC_MAXLEN`), the resulting
`ValueError` is caught: the view is unmapped, the mapping handle
closed, the already-started server closed and `sdServer` reset to
`None`.  On success it starts the server thread, creates the relay
transport, registers the inbound hooks, builds the bridge, starts the
relay thread, stores the mapping handle and view address, and finally
calls `SetEvent` (a `SetEvent` failure is only logged). -/
def enterSecureDesktop (s : HandlerState) (env : EnterEnv) :
    HandlerState × List SDAction :=
  match s.followerSession with
  | none => (s, [])
  | some fs =>
    match fs.transport with
    | none => (s, [])
    | some _ =>
      if env.createFileMappingOk then
        if env.mapViewOk then
          if IPC_MAXLEN ≤ handshakePayloadLen env.serverPort env.channel then
            ({ s with sdServer := none },
              [SDAction.createFileMapping true, SDAction.mapViewOfFile true,
               SDAction.startRelayServer env.serverPort, SDAction.writePayload false,
               SDAction.unmapView, SDAction.closeMapHandle, SDAction.closeServer])
          else
            ({ s with
                sdServer := some env.serverPort
                sdRelay := some env.serverPort
                sdBridge := some env.serverPort
                mapFile := some env.mapHandle
                bufferAddress := some env.viewAddress
                eventSet := s.eventSet || env.setEventOk },
              [SDAction.createFileMapping true, SDAction.mapViewOfFile true,
               SDAction.startRelayServer env.serverPort, SDAction.writePayload true,
               SDAction.startServerThread, SDAction.createRelayTransport,
               SDAction.registerRelayInbound, SDAction.registerFollowerInbound fs.sid,
               SDAction.createBridge, SDAction.startRelayThread,
               SDAction.setIpcEvent])
        else
          (s, [SDAction.createFileMapping true, SDAction.mapViewOfFile false,
               SDAction.closeMapHandle])
      else
        (s, [SDAction.createFileMapping false])

/-- The conditions under which `enterSecureDesktop` aborts without
publishing: no follower session, no follower transport, file-mapping
failure, map-view failure, or a handshake payload too large for the
shared buffer. -/
def enterAborts (s : HandlerState) (env : EnterEnv) : Bool :=
  match s.followerSession with
  | none => true
  | some fs =>
    match fs.transport with
    | none => true
    | some _ =>
      !env.createFileMappingOk || !env.mapViewOk ||
        decide (IPC_MAXLEN ≤ handshakePayloadLen env.serverPort env.channel)

/-- Environment of one `leaveSecureDesktop` call: outcomes of the OS
calls whose failures are only logged. -/
structure LeaveEnv where
  resetEventOk : Bool
  unmapOk : Bool
  closeHandleOk : Bool
deriving DecidableEq, Repr

/-- `SecureDesktopHandler.leaveSecureDesktop`.  A no-op when `sdServer`
is `None`.  Otherwise: disconnect the bridge (if any), close the relay
server, close the relay transport (if any), unregister the follower
transport's SET_BRAILLE_INFO inbound hook and trigger the follower
session's display-size resync (when a follower session with a transport
is attached), reset the IPC event, unmap the shared view and close the
mapping handle (each when present).  OS-call failures are only logged
and never skip the remaining steps, so the trace does not depend on
`env`. -/
def leaveSecureDesktop (s : HandlerState) (env : LeaveEnv) :
    HandlerState × List SDAction :=
  match s.sdServer with
  | none => (s, [])
  | some _ =>
    ({ s with
        sdBridge := none
        sdServer := none
        sdRelay := none
        eventSet := if env.resetEventOk then false else s.eventSet
        bufferAddress := none
        mapFile := none },
      (match s.sdBridge with
       | none => []
       | some _ => [SDAction.disconnectBridge]) ++
      [SDAction.closeServer] ++
      (match s.sdRelay with
       | none => []
       | some _ => [SDAction.closeRelay]) ++
      (match s.followerSession with
       | none => []
       | some fs =>
         match fs.transport with
         | none => []
         | some _ => [SDAction.unregisterFollowerInbound fs.sid, SDAction.setDisplaySize]) ++
      [SDAction.resetIpcEvent] ++
      (match s.bufferAddress with
       | none => []
       | some _ => [SDAction.unmapView]) ++
      (match s.mapFile with
       | none => []
       | some _ => [SDAction.closeMapHandle]))

/-- The `followerSession` property setter.  A no-op when the new session
equals the current one.  Otherwise, when a bundle is active
(`sdServer is not None`), the bundle is first torn down via
`leaveSecureDesktop`; then, when the old session has a transport, the
SET_BRAILLE_INFO inbound hook is unregistered from it; the reference is
replaced; and finally, when a new session is given, the hook is
registered on its transport. -/
def setFollowerSession (s : HandlerState) (sessionNew : Option FollowerSession)
    (env : LeaveEnv) : HandlerState × List SDAction :=
  if s.followerSession = sessionNew then (s, [])
  else
    let step1 : HandlerState × List SDAction :=
      match s.sdServer with
      | none => (s, [])
      | some _ => leaveSecureDesktop s env
    let trOld : List SDAction :=
      match step1.1.followerSession with
      | none => []
      | some fs =>
        match fs.transport with
        | none => []
        | some _ => [SDAction.unregisterFollowerInbound fs.sid]
    let trNew : List SDAction :=
      match sessionNew with
      | none => []
      | some fs => [SDAction.registerFollowerInbound fs.sid]
    ({ step1.1 with followerSession := sessionNew }, step1.2 ++ trOld ++ trNew)

/-- One serial invocation of a `SecureDesktopHandler` transition
method, together with the environment it runs in. -/
inductive SDTransition where
  | enter (env : EnterEnv)
  | leave (env : LeaveEnv)
  | setSession (sessionNew : Option FollowerSession) (env : LeaveEnv)

/-- State reached by running one transition method. -/
def applyTransition (s : HandlerState) : SDTransition → HandlerState
  | SDTransition.enter env => (enterSecureDesktop s env).1
  | SDTransition.leave env => (leaveSecureDesktop s env).1
  | SDTransition.setSession sessionNew env => (setFollowerSession s sessionNew env).1

/-- A character that `str(uuid.uuid4())` can produce: a decimal digit, a
lowercase hexadecimal letter, or a hyphen. -/
def isUuidChar (c : Char) : Bool :=
  decide ((48 ≤ c.toNat ∧ c.toNat ≤ 57) ∨ (97 ≤ c.toNat ∧ c.toNat ≤ 102) ∨ c.toNat = 45)

/-- Shape of `str(uuid.uuid4())`: 36 characters drawn from the UUID
alphabet (8-4-4-4-12 lowercase hex groups separated by hyphens). -/
def isUuid4String (s : String) : Bool :=
  s.length == 36 && s.data.all isUuidChar

/-- An `enterSecureDesktop` environment that the real collaborators can
produce: `serverPort` is a TCP port from `getsockname` and `channel`
comes from `str(uuid.uuid4())`. -/
def validEnterEnv (env : EnterEnv) : Bool :=
  decide (env.serverPort < 65536) && isUuid4String env.channel

/-- A transition whose environment the real collaborators can produce. -/
def validTransition : SDTransition → Bool
  | SDTransition.enter env => validEnterEnv env
  | SDTransition.leave _ => true
  | SDTransition.setSession _ _ => true

/-- The five bundle attributes are all live. -/
def bundleAllLive (s : HandlerState) : Bool :=
  s.sdServer.isSome && s.sdRelay.isSome && s.sdBridge.isSome &&
    s.mapFile.isSome && s.bufferAddress.isSome

/-- The five bundle attributes are all `None`. -/
def bundleAllNone (s : HandlerState) : Bool :=
  s.sdServer.isNone && s.sdRelay.isNone && s.sdBridge.isNone &&
    s.mapFile.isNone && s.bufferAddress.isNone

/-- All-or-none shape of the bundle. -/
def bundleConsistent (s : HandlerState) : Prop :=
  bundleAllLive s = true ∨ bundleAllNone s = true

/-- Possible results of `WaitForSingleObject` on the IPC event, as
distinguished by `initializeSecureDesktop`: success (WAIT_OBJECT_0),
timeout (WAIT_TIMEOUT), failure (WAIT_FAILED), and the remaining
unknown status (WAIT_ABANDONED). -/
inductive WaitOutcome where
  | object0
  | timeout
  | failed
  | abandoned
deriving DecidableEq, Repr

/-- Environment of one `initializeSecureDesktop` call: outcomes of the
OS calls, the wait (as a function of the timeout the method passes),
the parsed payload (`none` models a `json.loads` or unpacking failure),
the socket-permission probe, and the listening-socket/process-image
check. -/
structure InitEnv where
  openFileMappingOk : Bool
  mapViewOk : Bool
  wait : Nat → WaitOutcome
  payload : Option (Nat × String)
  socketProbeOk : Bool
  listeningSocketMatches : Bool

/-- What an `initializeSecureDesktop` call returned and which of the two
release operations on the shared buffer it performed before returning. -/
structure InitSDResult where
  connection : Option ConnectionInfo
  viewUnmapped : Bool
  mapHandleClosed : Bool
deriving Repr

/-- Timeout in milliseconds passed to `WaitForSingleObject` in
`initializeSecureDesktop`. -/
def initWaitTimeoutMs : Nat := 2000

/-- `SecureDesktopHandler.initializeSecureDesktop`.  Opens the named
file mapping (failure: return `None`), maps a view (failure: close the
mapping handle and return `None`), then waits on the IPC event with a
2000 ms timeout; on timeout, wait failure, or an unknown wait status it
returns `None` directly — these three returns precede the try/finally
block, so neither `UnmapViewOfFile` nor `closeHandle` runs on them.  On
a successful wait it enters the try block: parses the payload, probes
socket-creation permission, and checks that a matching listening socket
is owned by the same process image; any failure there is caught and
yields `None`; the finally block unmaps the view and closes the mapping
handle on both the success and the caught-failure paths. -/
def initializeSecureDesktop (env : InitEnv) : InitSDResult :=
  if !env.openFileMappingOk then
    { connection := none, viewUnmapped := false, mapHandleClosed := false }
  else if !env.mapViewOk then
    { connection := none, viewUnmapped := false, mapHandleClosed := true }
  else
    match env.wait initWaitTimeoutMs with
    | WaitOutcome.timeout =>
      { connection := none, viewUnmapped := false, mapHandleClosed := false }
    | WaitOutcome.failed =>
      { connection := none, viewUnmapped := false, mapHandleClosed := false }
    | WaitOutcome.abandoned =>
      { connection := none, viewUnmapped := false, mapHandleClosed := false }
    | WaitOutcome.object0 =>
      match env.payload with
      | none => { connection := none, viewUnmapped := true, mapHandleClosed := true }
      | some pc =>
        if !env.socketProbeOk then
          { connection := none, viewUnmapped := true, mapHandleClosed := true }
        else if !env.listeningSocketMatches then
          { connection := none, viewUnmapped := true, mapHandleClosed := true }
        else
          { connection := some
              { hostname := "127.0.0.1"
                mode := ConnectionMode.follower
                key := pc.2
                port := pc.1
                insecure := true }
            viewUnmapped := true
            mapHandleClosed := true }

/-- The `bManualReset` argument passed to `CreateEvent` in
`SecureDesktopHandler.__init__` — `CreateEvent(None, False, False,
_IPC_EVENTNAME)` — i.e. `False`: the IPC event is an auto-reset event. -/
def ipcEventManualResetFlag : Bool := false

/-- The `bInitialState` argument of the same `CreateEvent` call: the
event starts unsignalled. -/
def ipcEventInitialStateFlag : Bool := false

/-- Win32 event semantics: the signalled state of an event right after a
successful `WaitForSingleObject` on it.  A manual-reset event keeps its
state; an auto-reset event is reset to non-signalled by the wait. -/
def eventAfterSuccessfulWait (manualReset : Bool) (signaled : Bool) : Bool :=
  if manualReset then signaled else false

/-- `OrderedDict.__setitem__` from
`extensionPoints.util.HandlerRegistrar.register`: assigning an existing
key replaces its value in place, keeping its position; assigning a new
key appends it at the end. -/
def odSetItem (l : List (Nat × Nat)) (k v : Nat) : List (Nat × Nat) :=
  if l.any fun p => p.1 = k then
    l.map fun p => if p.1 = k then (k, v) else p
  else l ++ [(k, v)]

/-- `HandlerRegistrar.register` on the `_handlers` ordered dictionary.
A handler object is identified by a number (its Python `id`);
`_getHandlerKey` returns that identity, which becomes the key, and the
stored weak reference designates the same object, so the stored value is
that identity as well. -/
def registerHandler (l : List (Nat × Nat)) (h : Nat) : List (Nat × Nat) :=
  odSetItem l h h

/-- The `HandlerRegistrar.handlers` generator: walks the ordered
dictionary's values and yields each weak reference's referent, skipping
dead ones.  `alive` tells which referents are still alive. -/
def liveHandlers (alive : Nat → Bool) (l : List (Nat × Nat)) : List Nat :=
  l.filterMap fun p => if alive p.2 then some p.2 else none

/-- Every stored weak reference designates the object its key
identifies: the `_handlers` representation invariant established by
`register`. -/
def registrarWellFormed (l : List (Nat × Nat)) : Prop :=
  ∀ p ∈ l, p.1 = p.2

/-- A handler state whose bundle is fully live and whose follower
session has a transport. -/
def fullBundleState : HandlerState :=
  { mapFile := some 3
    bufferAddress := some 4
    followerSession := some ⟨1, some 2⟩
    sdServer := some 5
    sdRelay := some 6
    sdBridge := some 7
    eventSet := true }

/-- The freshly constructed state with a follower session attached. -/
def sessionReadyState : HandlerState :=
  { initialHandlerState with followerSession := some ⟨1, some 2⟩ }

/-- A leave environment in which every OS call succeeds. -/
def okLeaveEnv : LeaveEnv :=
  { resetEventOk := true, unmapOk := true, closeHandleOk := true }

/-- A leave environment in which every OS call fails (failures are only
logged). -/
def failLeaveEnv : LeaveEnv :=
  { resetEventOk := false, unmapOk := false, closeHandleOk := false }

/-- An enter environment whose channel has the shape of a real
`str(uuid.uuid4())` value. -/
def uuidEnterEnv : EnterEnv :=
  { createFileMappingOk := true
    mapViewOk := true
    mapHandle := 7
    viewAddress := 11
    serverPort := 4242
    channel := "aaaaaaaa-aaaa-aaaa-aaaa-aaaaaaaaaaaa"
    setEventOk := true }

/-- An enter environment whose channel makes
`json.dumps([port, channel])` exactly 64 characters long, filling the
whole shared buffer and leaving no room for the terminating null. -/
def oversizedEnterEnv : EnterEnv :=
  { createFileMappingOk := true
    mapViewOk := true
    mapHandle := 7
    viewAddress := 11
    serverPort := 1
    channel := String.mk (List.replicate 57 'a')
    setEventOk := true }

/-- An `initializeSecureDesktop` environment in which the mapping
opens and maps, but the wait on the IPC event times out. -/
def waitTimeoutInitEnv : InitEnv :=
  { openFileMappingOk := true
    mapViewOk := true
    wait := fun _ => WaitOutcome.timeout
    payload := none
    socketProbeOk := true
    listeningSocketMatches := true }

/-- An `initializeSecureDesktop` environment in which the wait succeeds
but the payload is malformed. -/
def badPayloadInitEnv : InitEnv :=
  { openFileMappingOk := true
    mapViewOk := true
    wait := fun _ => WaitOutcome.object0
    payload := none
    socketProbeOk := true
    listeningSocketMatches := true }

/-- A serial run: attach a follower session, enter the secure desktop
with a realistic environment, then leave it. -/
def sampleTransitions : List SDTransition :=
  [SDTransition.setSession (some ⟨1, some 2⟩) okLeaveEnv,
   SDTransition.enter uuidEnterEnv,
   SDTransition.leave okLeaveEnv]

theorem decLenAux_le (fuel : Nat) :
    ∀ n k : Nat, 1 ≤ k → n < 10 ^ k → decLenAux fuel n ≤ k := by
  induction fuel with
  | zero =>
      intro n k hk _
      simpa [decLenAux] using hk
  | succ fuel ih =>
      intro n k hk hn
      by_cases h10 : n < 10
      · simpa [decLenAux, h10] using hk
      · have hk2 : 2 ≤ k := by
          rcases Nat.lt_or_ge k 2 with h | h
          · exfalso
            have hk1 : k = 1 := by omega
            rw [hk1, pow_one] at hn
            omega
          · exact h
        have hpow : 10 ^ (k - 1) * 10 = 10 ^ k := by
          rw [← pow_succ]
          congr 1
          omega
        have hdiv : n / 10 < 10 ^ (k - 1) := by
          rw [Nat.div_lt_iff_lt_mul (by norm_num : (0 : Nat) < 10)]
          omega
        have hrec := ih (n / 10) (k - 1) (by omega) hdiv
        simp only [decLenAux, if_neg h10]
        omega

theorem jsonEncodedCharLen_of_uuidChar (c : Char) (h : isUuidChar c = true) :
    jsonEncodedCharLen c = 1 := by
  simp only [isUuidChar, decide_eq_true_eq] at h
  have hq : ¬ (c = '"' ∨ c = '\\') := by
    rintro (rfl | rfl) <;> revert h <;> decide
  have h8 : ¬ (c.toNat = 8 ∨ c.toNat = 9 ∨ c.toNat = 10 ∨ c.toNat = 12 ∨ c.toNat = 13) := by
    omega
  have h32 : ¬ c.toNat < 32 := by omega
  have h127 : c.toNat < 127 := by omega
  simp [jsonEncodedCharLen, hq, h8, h32, h127]

theorem sum_jsonEncodedCharLen (l : List Char) (h : ∀ c ∈ l, isUuidChar c = true) :
    (l.map jsonEncodedCharLen).sum = l.length := by
  induction l with
  | nil => simp
  | cons c l ih =>
      have hc := jsonEncodedCharLen_of_uuidChar c (h c (by simp))
      have hrest := ih fun d hd => h d (by simp [hd])
      simp [hc, hrest]
      omega

theorem handshakePayloadLen_lt (port : Nat) (channel : String)
    (hp : port < 65536) (hc : isUuid4String channel = true) :
    handshakePayloadLen port channel < IPC_MAXLEN := by
  simp only [isUuid4String, Bool.and_eq_true, beq_iff_eq, List.all_eq_true] at hc
  obtain ⟨hlen, hall⟩ := hc
  have hsum : (channel.data.map jsonEncodedCharLen).sum = channel.data.length :=
    sum_jsonEncodedCharLen channel.data fun c hcm => hall c hcm
  have hdatalen : channel.data.length = 36 := hlen
  have hpow : (10 : Nat) ^ 5 = 100000 := by norm_num
  have hdl : decLen port ≤ 5 := decLenAux_le port port 5 (by norm_num) (by omega)
  simp only [handshakePayloadLen, jsonStringLen, IPC_MAXLEN, hsum, hdatalen]
  omega

/-- C1: the claim says the buffer view is unmapped and the mapping
handle closed on every exit path of `initializeSecureDesktop`,
including the wait-timeout, wait-failure and unknown-wait-status paths.
The code contradicts this: when `OpenFileMapping` and `MapViewOfFile`
both succeed and `WaitForSingleObject` then times out, the method
returns `None` from a point that precedes the try/finally block, so the
view stays mapped and the mapping handle stays open — a resource leak
against the evident intent of the finally block. -/
theorem c1_wait_timeout_leaks_mapping :
    (initializeSecureDesktop waitTimeoutInitEnv).connection = none ∧
    (initializeSecureDesktop waitTimeoutInitEnv).viewUnmapped = false ∧
    (initializeSecureDesktop waitTimeoutInitEnv).mapHandleClosed = false :=
  ⟨rfl, rfl, rfl⟩

/-- C5: `initializeSecureDesktop` waits on the IPC event with a bounded
2000 ms timeout, and every consumer-side failure — a wait that does not
return WAIT_OBJECT_0 (timeout, failure, unknown status), a malformed or
non-decodable payload, a socket-permission probe failure, or a
listening-socket/process-image mismatch — makes the method return
`None` rather than raise (the embedded function is total: every
exception the source can raise on these paths is caught by its handler,
which returns `None`). -/
theorem c5_init_bounded_wait_never_raises (env : InitEnv)
    (h : env.wait initWaitTimeoutMs ≠ WaitOutcome.object0 ∨ env.payload = none ∨
      env.socketProbeOk = false ∨ env.listeningSocketMatches = false) :
    initWaitTimeoutMs = 2000 ∧ (initializeSecureDesktop env).connection = none := by
  refine ⟨rfl, ?_⟩
  unfold initializeSecureDesktop
  cases hopen : env.openFileMappingOk with
  | false => simp
  | true =>
      cases hmap : env.mapViewOk with
      | false => simp
      | true =>
          simp only [Bool.not_true, Bool.false_eq_true, if_false]
          cases hw : env.wait initWaitTimeoutMs with
          | timeout => simp
          | failed => simp
          | abandoned => simp
          | object0 =>
              cases hpay : env.payload with
              | none => simp
              | some pc =>
                  cases hprobe : env.socketProbeOk with
                  | false => simp
                  | true =>
                      cases hlisten : env.listeningSocketMatches with
                      | false => simp
                      | true =>
                          exfalso
                          rw [hw, hpay, hprobe, hlisten] at h
                          rcases h with h | h | h | h <;> simp at h

theorem c5_witness :
    initWaitTimeoutMs = 2000 ∧ (initializeSecureDesktop badPayloadInitEnv).connection = none :=
  c5_init_bounded_wait_never_raises badPayloadInitEnv (Or.inr (Or.inl rfl))

/-- C6: calling `leaveSecureDesktop` with no active bundle (`sdServer`
is `None`) performs no operations and leaves the state untouched, and
after any `leaveSecureDesktop` call a second call is exactly such a
no-op, so two successive calls are always safe. -/
theorem c6_leave_idempotent (s : HandlerState) (env1 env2 : LeaveEnv) :
    (s.sdServer = none → leaveSecureDesktop s env1 = (s, [])) ∧
    leaveSecureDesktop (leaveSecureDesktop s env1).1 env2 =
      ((leaveSecureDesktop s env1).1, []) := by
  constructor
  · intro h
    simp [leaveSecureDesktop, h]
  · cases hs : s.sdServer with
    | none => simp [leaveSecureDesktop, hs]
    | some p => simp [leaveSecureDesktop, hs]

theorem c6_witness :
    (fullBundleState.sdServer = none →
      leaveSecureDesktop fullBundleState okLeaveEnv = (fullBundleState, [])) ∧
    leaveSecureDesktop (leaveSecureDesktop fullBundleState okLeaveEnv).1 okLeaveEnv =
      ((leaveSecureDesktop fullBundleState okLeaveEnv).1, []) :=
  c6_leave_idempotent fullBundleState okLeaveEnv okLeaveEnv

/-- C8: with a fully live bundle and an attached follower session with a
transport, `leaveSecureDesktop` performs exactly — and in exactly this
order — bridge disconnect, relay-server close, relay-transport close,
unregistration of the follower transport's SET_BRAILLE_INFO hook, the
follower session's display-size resync, the IPC event reset, the view
unmap, and the mapping-handle close last.  The trace does not depend on
`env`, which carries the success or failure of the OS calls: a failure
reported by any step never skips the remaining steps. -/
theorem c8_leave_cleanup_order (s : HandlerState) (env : LeaveEnv) (fs : FollowerSession)
    (hbr : s.sdBridge.isSome = true) (hsv : s.sdServer.isSome = true)
    (hrl : s.sdRelay.isSome = true) (hfs : s.followerSession = some fs)
    (htr : fs.transport.isSome = true)
    (hbuf : s.bufferAddress.isSome = true) (hmap : s.mapFile.isSome = true) :
    (leaveSecureDesktop s env).2 =
      [SDAction.disconnectBridge, SDAction.closeServer, SDAction.closeRelay,
       SDAction.unregisterFollowerInbound fs.sid, SDAction.setDisplaySize,
       SDAction.resetIpcEvent, SDAction.unmapView, SDAction.closeMapHandle] := by
  rcases Option.isSome_iff_exists.mp hbr with ⟨b, hb⟩
  rcases Option.isSome_iff_exists.mp hsv with ⟨v, hv⟩
  rcases Option.isSome_iff_exists.mp hrl with ⟨r, hr⟩
  rcases Option.isSome_iff_exists.mp htr with ⟨t, ht⟩
  rcases Option.isSome_iff_exists.mp hbuf with ⟨a, ha⟩
  rcases Option.isSome_iff_exists.mp hmap with ⟨m, hm⟩
  simp [leaveSecureDesktop, hb, hv, hr, hfs, ht, ha, hm]

theorem c8_witness :
    (leaveSecureDesktop fullBundleState failLeaveEnv).2 =
      [SDAction.disconnectBridge, SDAction.closeServer, SDAction.closeRelay,
       SDAction.unregisterFollowerInbound 1, SDAction.setDisplaySize,
       SDAction.resetIpcEvent, SDAction.unmapView, SDAction.closeMapHandle] :=
  c8_leave_cleanup_order fullBundleState failLeaveEnv ⟨1, some 2⟩ rfl rfl rfl rfl rfl rfl rfl

/-- C2: in every `enterSecureDesktop` execution, `SetEvent` is reached
only as the very last action, strictly after the handshake payload with
its terminating null has been fully written and after the relay server,
the relay transport, and the bridge have all been constructed; and on
every abort path — no follower session or transport, file-mapping
failure, map-view failure, oversized payload — the event is never
signalled. -/
theorem c2_event_signaled_only_after_full_publish (s : HandlerState) (env : EnterEnv) :
    (enterAborts s env = true → SDAction.setIpcEvent ∉ (enterSecureDesktop s env).2) ∧
    (SDAction.setIpcEvent ∈ (enterSecureDesktop s env).2 →
      ∃ pre, (enterSecureDesktop s env).2 = pre ++ [SDAction.setIpcEvent] ∧
        SDAction.writePayload true ∈ pre ∧
        SDAction.startRelayServer env.serverPort ∈ pre ∧
        SDAction.createRelayTransport ∈ pre ∧
        SDAction.createBridge ∈ pre ∧
        SDAction.setIpcEvent ∉ pre) := by
  cases hfs : s.followerSession with
  | none =>
      constructor
      · intro _
        simp [enterSecureDesktop, hfs]
      · intro hmem
        simp [enterSecureDesktop, hfs] at hmem
  | some fs =>
      cases htr : fs.transport with
      | none =>
          constructor
          · intro _
            simp [enterSecureDesktop, hfs, htr]
          · intro hmem
            simp [enterSecureDesktop, hfs, htr] at hmem
      | some t =>
          cases hcf : env.createFileMappingOk with
          | false =>
              constructor
              · intro _
                simp [enterSecureDesktop, hfs, htr, hcf]
              · intro hmem
                simp [enterSecureDesktop, hfs, htr, hcf] at hmem
          | true =>
              cases hmv : env.mapViewOk with
              | false =>
                  constructor
                  · intro _
                    simp [enterSecureDesktop, hfs, htr, hcf, hmv]
                  · intro hmem
                    simp [enterSecureDesktop, hfs, htr, hcf, hmv] at hmem
              | true =>
                  by_cases hlen : IPC_MAXLEN ≤ handshakePayloadLen env.serverPort env.channel
                  · constructor
                    · intro _
                      simp [enterSecureDesktop, hfs, htr, hcf, hmv, hlen]
                    · intro hmem
                      simp [enterSecureDesktop, hfs, htr, hcf, hmv, hlen] at hmem
                  · constructor
                    · intro habort
                      exfalso
                      simp [enterAborts, hfs, htr, hcf, hmv, hlen] at habort
                    · intro _
                      refine ⟨[SDAction.createFileMapping true, SDAction.mapViewOfFile true,
                        SDAction.startRelayServer env.serverPort, SDAction.writePayload true,
                        SDAction.startServerThread, SDAction.createRelayTransport,
                        SDAction.registerRelayInbound, SDAction.registerFollowerInbound fs.sid,
                        SDAction.createBridge, SDAction.startRelayThread], ?_, ?_, ?_, ?_, ?_, ?_⟩
                      · simp [enterSecureDesktop, hfs, htr, hcf, hmv, hlen]
                      · simp
                      · simp
                      · simp
                      · simp
                      · simp

theorem c2_witness :
    SDAction.setIpcEvent ∉ (enterSecureDesktop sessionReadyState oversizedEnterEnv).2 :=
  (c2_event_signaled_only_after_full_publish sessionReadyState oversizedEnterEnv).1 (by decide)

/-- C3: starting from a bundle-free state, when the follower session and
its transport are present, the mapping and view calls succeed, and
`json.dumps([port, channel])` is exactly 64 characters (the whole
buffer, no room for the terminating null), `enterSecureDesktop` aborts
fail-closed: afterwards `sdServer`, `sdRelay`, `sdBridge`, `_mapFile`
and `_bufferAddress` are all `None`, the already-started relay server
has been closed and the view unmapped and the mapping handle closed,
and the IPC event is never signalled.  The raised `ValueError` is
caught inside the method (the embedded function is total), so no
exception escapes to the caller. -/
theorem c3_oversized_payload_fail_closed (s : HandlerState) (env : EnterEnv)
    (fs : FollowerSession)
    (hfs : s.followerSession = some fs) (htr : fs.transport.isSome = true)
    (hfree : bundleAllNone s = true)
    (hcf : env.createFileMappingOk = true) (hmv : env.mapViewOk = true)
    (hlen : handshakePayloadLen env.serverPort env.channel = IPC_MAXLEN) :
    ((enterSecureDesktop s env).1.sdServer = none ∧
     (enterSecureDesktop s env).1.sdRelay = none ∧
     (enterSecureDesktop s env).1.sdBridge = none ∧
     (enterSecureDesktop s env).1.mapFile = none ∧
     (enterSecureDesktop s env).1.bufferAddress = none) ∧
    SDAction.closeServer ∈ (enterSecureDesktop s env).2 ∧
    SDAction.unmapView ∈ (enterSecureDesktop s env).2 ∧
    SDAction.closeMapHandle ∈ (enterSecureDesktop s env).2 ∧
    SDAction.setIpcEvent ∉ (enterSecureDesktop s env).2 := by
  rcases Option.isSome_iff_exists.mp htr with ⟨t, ht⟩
  simp only [bundleAllNone, Bool.and_eq_true, Option.isNone_iff_eq_none] at hfree
  obtain ⟨⟨⟨⟨h1, h2⟩, h3⟩, h4⟩, h5⟩ := hfree
  have hge : IPC_MAXLEN ≤ handshakePayloadLen env.serverPort env.channel :=
    le_of_eq hlen.symm
  simp [enterSecureDesktop, hfs, ht, hcf, hmv, hge, h2, h3, h4, h5]

theorem c3_witness :
    (enterSecureDesktop sessionReadyState oversizedEnterEnv).1.sdServer = none ∧
    (enterSecureDesktop sessionReadyState oversizedEnterEnv).1.sdRelay = none ∧
    (enterSecureDesktop sessionReadyState oversizedEnterEnv).1.sdBridge = none ∧
    (enterSecureDesktop sessionReadyState oversizedEnterEnv).1.mapFile = none ∧
    (enterSecureDesktop sessionReadyState oversizedEnterEnv).1.bufferAddress = none :=
  (c3_oversized_payload_fail_closed sessionReadyState oversizedEnterEnv ⟨1, some 2⟩
    rfl rfl rfl rfl rfl (by decide)).1

/-- C4 counterexample: the claim calls the IPC synchronization primitive
a manual-reset event that, once signalled, stays set until explicitly
reset.  The constructor passes `False` as the `bManualReset` argument of
`CreateEvent`, so the event is auto-reset, and a successful wait leaves
it unsignalled without any explicit reset. -/
theorem c4_counterexample_not_manual_reset :
    ipcEventManualResetFlag ≠ true ∧
    eventAfterSuccessfulWait ipcEventManualResetFlag true = false := by
  decide

/-- C4 (amended): the IPC primitive created in the constructor is a
named auto-reset event (`bManualReset = False`), initially unsignalled;
the writer never resets it as part of publishing (`enterSecureDesktop`
never performs `ResetEvent`); once signalled it leaves the set state
only when a successful wait consumes it (auto-reset) or when
`leaveSecureDesktop` explicitly resets it. -/
theorem c4_event_auto_reset (s : HandlerState) (env : EnterEnv) (env2 : LeaveEnv) :
    ipcEventManualResetFlag = false ∧
    ipcEventInitialStateFlag = false ∧
    SDAction.resetIpcEvent ∉ (enterSecureDesktop s env).2 ∧
    eventAfterSuccessfulWait ipcEventManualResetFlag true = false ∧
    (s.sdServer.isSome = true →
      SDAction.resetIpcEvent ∈ (leaveSecureDesktop s env2).2) := by
  refine ⟨rfl, rfl, ?_, rfl, ?_⟩
  · cases hfs : s.followerSession with
    | none => simp [enterSecureDesktop, hfs]
    | some fs =>
        cases htr : fs.transport with
        | none => simp [enterSecureDesktop, hfs, htr]
        | some t =>
            cases hcf : env.createFileMappingOk with
            | false => simp [enterSecureDesktop, hfs, htr, hcf]
            | true =>
                cases hmv : env.mapViewOk with
                | false => simp [enterSecureDesktop, hfs, htr, hcf, hmv]
                | true =>
                    by_cases hlen :
                        IPC_MAXLEN ≤ handshakePayloadLen env.serverPort env.channel
                    · simp [enterSecureDesktop, hfs, htr, hcf, hmv, hlen]
                    · simp [enterSecureDesktop, hfs, htr, hcf, hmv, hlen]
  · intro hsv
    rcases Option.isSome_iff_exists.mp hsv with ⟨v, hv⟩
    simp [leaveSecureDesktop, hv]

theorem c4_witness :
    ipcEventManualResetFlag = false ∧
    ipcEventInitialStateFlag = false ∧
    SDAction.resetIpcEvent ∉ (enterSecureDesktop fullBundleState uuidEnterEnv).2 ∧
    eventAfterSuccessfulWait ipcEventManualResetFlag true = false ∧
    SDAction.resetIpcEvent ∈ (leaveSecureDesktop fullBundleState okLeaveEnv).2 := by
  have h := c4_event_auto_reset fullBundleState uuidEnterEnv okLeaveEnv
  exact ⟨h.1, h.2.1, h.2.2.1, h.2.2.2.1, h.2.2.2.2 rfl⟩

theorem leaveSecureDesktop_state (s : HandlerState) (env : LeaveEnv) (p : Nat)
    (h : s.sdServer = some p) :
    bundleAllNone (leaveSecureDesktop s env).1 = true ∧
    (leaveSecureDesktop s env).1.followerSession = s.followerSession := by
  simp [leaveSecureDesktop, h, bundleAllNone]

theorem applyTransition_preserves (s : HandlerState) (t : SDTransition)
    (hs : bundleConsistent s) (hv : validTransition t = true) :
    bundleConsistent (applyTransition s t) := by
  cases t with
  | enter env =>
      simp only [validTransition, validEnterEnv, Bool.and_eq_true, decide_eq_true_eq] at hv
      have hlt : handshakePayloadLen env.serverPort env.channel < IPC_MAXLEN :=
        handshakePayloadLen_lt env.serverPort env.channel hv.1 hv.2
      have hlen : ¬ IPC_MAXLEN ≤ handshakePayloadLen env.serverPort env.channel := by
        omega
      cases hfs : s.followerSession with
      | none => simpa [applyTransition, enterSecureDesktop, hfs] using hs
      | some fs =>
          cases htr : fs.transport with
          | none => simpa [applyTransition, enterSecureDesktop, hfs, htr] using hs
          | some t =>
              cases hcf : env.createFileMappingOk with
              | false => simpa [applyTransition, enterSecureDesktop, hfs, htr, hcf] using hs
              | true =>
                  cases hmv : env.mapViewOk with
                  | false =>
                      simpa [applyTransition, enterSecureDesktop, hfs, htr, hcf, hmv] using hs
                  | true =>
                      left
                      simp [applyTransition, enterSecureDesktop, hfs, htr, hcf, hmv, hlen,
                        bundleAllLive]
  | leave env =>
      cases hsv : s.sdServer with
      | none => simpa [applyTransition, leaveSecureDesktop, hsv] using hs
      | some p =>
          right
          exact (leaveSecureDesktop_state s env p hsv).1
  | setSession n env =>
      by_cases heq : s.followerSession = n
      · simpa [applyTransition, setFollowerSession, heq] using hs
      · cases hsv : s.sdServer with
        | none =>
            rcases hs with hl | hn
            · exfalso
              simp [bundleAllLive, hsv] at hl
            · right
              simp only [bundleAllNone, Bool.and_eq_true, Option.isNone_iff_eq_none] at hn
              simp [applyTransition, setFollowerSession, heq, hsv, bundleAllNone,
                hn.1.1.1.2, hn.1.1.2, hn.1.2, hn.2]
        | some p =>
            right
            have hclear := (leaveSecureDesktop_state s env p hsv).1
            simp only [bundleAllNone, Bool.and_eq_true, Option.isNone_iff_eq_none] at hclear
            simp [applyTransition, setFollowerSession, heq, hsv, bundleAllNone,
              hclear.1.1.1.1, hclear.1.1.1.2, hclear.1.1.2, hclear.1.2, hclear.2]

/-- C7: starting from the constructed state, after any serial sequence
of transition-method invocations — `enterSecureDesktop` with
environments its real collaborators can produce (a TCP port and a
`str(uuid.uuid4())` channel), `leaveSecureDesktop`, and the
`followerSession` setter — the bundle attributes `sdServer`, `sdRelay`,
`sdBridge`, `_mapFile`, `_bufferAddress` are either all live or all
`None`: the bundle is never partially present between transitions. -/
theorem c7_bundle_all_or_none_invariant (ts : List SDTransition)
    (hv : ∀ t ∈ ts, validTransition t = true) :
    bundleConsistent (ts.foldl applyTransition initialHandlerState) := by
  have key : ∀ (l : List SDTransition) (s : HandlerState), bundleConsistent s →
      (∀ t ∈ l, validTransition t = true) →
      bundleConsistent (l.foldl applyTransition s) := by
    intro l
    induction l with
    | nil =>
        intro s hs _
        simpa using hs
    | cons t l ih =>
        intro s hs hvl
        have hstep := applyTransition_preserves s t hs (hvl t (by simp))
        exact ih _ hstep fun u hu => hvl u (by simp [hu])
  exact key ts initialHandlerState (Or.inr rfl) hv

theorem c7_witness :
    bundleConsistent (sampleTransitions.foldl applyTransition initialHandlerState) :=
  c7_bundle_all_or_none_invariant sampleTransitions (by decide)

/-- C9: assigning the `followerSession` property with the current
session is a no-op; otherwise the reference is replaced, and when a
bundle is active it is fully torn down — via `leaveSecureDesktop`,
whose actions come before everything else the setter does — and the
SET_BRAILLE_INFO subscription is removed from the old session's
transport strictly before it is installed on the new session's
transport, the installation being the very last action. -/
theorem c9_follower_session_setter (s : HandlerState) (n : Option FollowerSession)
    (env : LeaveEnv) :
    (s.followerSession = n → setFollowerSession s n env = (s, [])) ∧
    (s.followerSession ≠ n →
      (setFollowerSession s n env).1.followerSession = n ∧
      (∀ p, s.sdServer = some p →
        (setFollowerSession s n env).1.sdServer = none ∧
        (setFollowerSession s n env).1.sdRelay = none ∧
        (setFollowerSession s n env).1.sdBridge = none ∧
        (setFollowerSession s n env).1.mapFile = none ∧
        (setFollowerSession s n env).1.bufferAddress = none ∧
        ∃ rest, (setFollowerSession s n env).2 = (leaveSecureDesktop s env).2 ++ rest) ∧
      (∀ fsOld fsNew, s.followerSession = some fsOld → fsOld.transport.isSome = true →
        n = some fsNew →
        ∃ pre, (setFollowerSession s n env).2 =
            pre ++ [SDAction.registerFollowerInbound fsNew.sid] ∧
          SDAction.unregisterFollowerInbound fsOld.sid ∈ pre)) := by
  constructor
  · intro h
    simp [setFollowerSession, h]
  · intro hne
    refine ⟨?_, ?_, ?_⟩
    · cases hsv : s.sdServer with
      | none => simp [setFollowerSession, hne, hsv]
      | some p => simp [setFollowerSession, hne, hsv, leaveSecureDesktop]
    · intro p hp
      have hclear := (leaveSecureDesktop_state s env p hp).1
      simp only [bundleAllNone, Bool.and_eq_true, Option.isNone_iff_eq_none] at hclear
      obtain ⟨⟨⟨⟨g1, g2⟩, g3⟩, g4⟩, g5⟩ := hclear
      refine ⟨?_, ?_, ?_, ?_, ?_, ?_⟩
      · simp [setFollowerSession, hne, hp, g1]
      · simp [setFollowerSession, hne, hp, g2]
      · simp [setFollowerSession, hne, hp, g3]
      · simp [setFollowerSession, hne, hp, g4]
      · simp [setFollowerSession, hne, hp, g5]
      · refine ⟨(match (leaveSecureDesktop s env).1.followerSession with
          | none => []
          | some fs =>
            match fs.transport with
            | none => []
            | some _ => [SDAction.unregisterFollowerInbound fs.sid]) ++
          (match n with
           | none => []
           | some fs => [SDAction.registerFollowerInbound fs.sid]), ?_⟩
        simp only [setFollowerSession, if_neg hne, hp]
        cases n <;> simp
    · intro fsOld fsNew hOld htrO hNew
      rcases Option.isSome_iff_exists.mp htrO with ⟨t, ht⟩
      have hne2 : fsOld ≠ fsNew := by
        intro hcontra
        apply hne
        rw [hOld, hNew, hcontra]
      cases hsv : s.sdServer with
      | none =>
          refine ⟨[SDAction.unregisterFollowerInbound fsOld.sid], ?_, by simp⟩
          simp [setFollowerSession, hne, hne2, hsv, hOld, ht, hNew]
      | some p =>
          have hfol := (leaveSecureDesktop_state s env p hsv).2
          refine ⟨(leaveSecureDesktop s env).2 ++
            [SDAction.unregisterFollowerInbound fsOld.sid], ?_, by simp⟩
          simp [setFollowerSession, hne, hne2, hsv, hfol, hOld, ht, hNew]

theorem c9_witness :
    (setFollowerSession fullBundleState (some ⟨8, some 9⟩) okLeaveEnv).1.followerSession =
      some ⟨8, some 9⟩ ∧
    (setFollowerSession fullBundleState (some ⟨8, some 9⟩) okLeaveEnv).1.sdServer = none ∧
    ∃ pre, (setFollowerSession fullBundleState (some ⟨8, some 9⟩) okLeaveEnv).2 =
        pre ++ [SDAction.registerFollowerInbound 8] ∧
      SDAction.unregisterFollowerInbound 1 ∈ pre := by
  have h := (c9_follower_session_setter fullBundleState (some ⟨8, some 9⟩) okLeaveEnv).2
    (by decide)
  exact ⟨h.1, (h.2.1 5 rfl).1, h.2.2 ⟨1, some 2⟩ ⟨8, some 9⟩ rfl rfl rfl⟩

theorem odSetItem_id_of_mem (l : List (Nat × Nat)) (h : Nat)
    (hw : registrarWellFormed l) (hmem : l.any (fun p => p.1 = h) = true) :
    odSetItem l h h = l := by
  unfold odSetItem
  rw [if_pos hmem]
  have heach : ∀ p ∈ l, (if p.1 = h then ((h, h) : Nat × Nat) else p) = p := by
    intro p hp
    obtain ⟨a, b⟩ := p
    have hab : a = b := hw (a, b) hp
    subst hab
    by_cases hah : a = h
    · subst hah
      simp
    · simp [hah]
  rw [List.map_congr_left heach]
  simp

theorem registerHandler_wf (l : List (Nat × Nat)) (h : Nat)
    (hw : registrarWellFormed l) : registrarWellFormed (registerHandler l h) := by
  unfold registerHandler odSetItem
  split
  · intro p hp
    rcases List.mem_map.mp hp with ⟨q, hq, hqe⟩
    by_cases hqh : q.1 = h
    · rw [if_pos hqh] at hqe
      rw [← hqe]
    · rw [if_neg hqh] at hqe
      rw [← hqe]
      exact hw q hq
  · intro p hp
    rcases List.mem_append.mp hp with hq | hq
    · exact hw p hq
    · have : p = (h, h) := by simpa using hq
      rw [this]

theorem registerHandler_key_mem (l : List (Nat × Nat)) (h : Nat) :
    (registerHandler l h).any (fun p => p.1 = h) = true := by
  unfold registerHandler odSetItem
  split
  · rename_i hmem
    rw [List.any_eq_true] at hmem ⊢
    obtain ⟨q, hq, hqh⟩ := hmem
    have hq1 : q.1 = h := of_decide_eq_true hqh
    exact ⟨(h, h), List.mem_map.mpr ⟨q, hq, by simp [hq1]⟩, by simp⟩
  · rw [List.any_eq_true]
    exact ⟨(h, h), by simp, by simp⟩

theorem not_mem_liveHandlers (l : List (Nat × Nat)) (h : Nat) (alive : Nat → Bool)
    (hw : registrarWellFormed l) (hk : l.any (fun p => p.1 = h) = false) :
    h ∉ liveHandlers alive l := by
  intro hmem
  simp only [liveHandlers, List.mem_filterMap] at hmem
  obtain ⟨p, hp, hcond⟩ := hmem
  have hph : p.2 = h := by
    by_cases hal : alive p.2 = true
    · rw [if_pos hal] at hcond
      exact Option.some.inj hcond
    · rw [if_neg hal] at hcond
      simp at hcond
  have hkey : p.1 = h := (hw p hp).trans hph
  simp only [List.any_eq_false, decide_eq_true_eq] at hk
  exact hk p hp hkey

theorem count_liveHandlers_key :
    ∀ (l : List (Nat × Nat)) (h : Nat) (alive : Nat → Bool),
      registrarWellFormed l → (l.map Prod.fst).Nodup →
      l.any (fun p => p.1 = h) = true → alive h = true →
      (liveHandlers alive l).count h = 1 := by
  intro l
  induction l with
  | nil =>
      intro h alive _ _ hk _
      simp at hk
  | cons q rest ih =>
      intro h alive hw hnd hk ha
      obtain ⟨a, b⟩ := q
      have hab : a = b := hw (a, b) (by simp)
      subst hab
      have hwrest : registrarWellFormed rest := fun p hp => hw p (by simp [hp])
      have hndrest : (rest.map Prod.fst).Nodup := by
        simp only [List.map_cons, List.nodup_cons] at hnd
        exact hnd.2
      have hanotin : a ∉ rest.map Prod.fst := by
        simp only [List.map_cons, List.nodup_cons] at hnd
        exact hnd.1
      by_cases hah : a = h
      · subst hah
        have hrestnone : a ∉ liveHandlers alive rest := by
          apply not_mem_liveHandlers rest a alive hwrest
          rw [List.any_eq_false]
          intro p hp
          simp only [decide_eq_true_eq]
          intro hpa
          exact hanotin (List.mem_map.mpr ⟨p, hp, hpa⟩)
        simp only [liveHandlers, List.filterMap_cons]
        rw [if_pos ha]
        rw [List.count_cons_self]
        have hzero : (List.filterMap
            (fun p => if alive p.2 = true then some p.2 else none) rest).count a = 0 :=
          List.count_eq_zero.mpr hrestnone
        rw [hzero]
      · have hkrest : rest.any (fun p => p.1 = h) = true := by
          simp only [List.any_cons, Bool.or_eq_true, decide_eq_true_eq] at hk
          rcases hk with hk | hk
          · exact absurd hk hah
          · exact hk
        have hrec := ih h alive hwrest hndrest hkrest ha
        simp only [liveHandlers, List.filterMap_cons] at hrec ⊢
        by_cases hal : alive a = true
        · rw [if_pos hal, List.count_cons_of_ne (fun hcontra => hah hcontra.symm)]
          exact hrec
        · rw [if_neg hal]
          exact hrec

/-- C10: registering the same live handler a second time with
`HandlerRegistrar.register` leaves the `_handlers` ordered dictionary
unchanged, so iterating the `handlers` generator afterwards yields the
handler exactly once, at the position of its first registration —
duplicate registration neither duplicates invocation nor moves the
handler to the end of the invocation order.  The hypotheses are the
registrar's representation invariants: every stored weak reference
designates the object its key identifies, and keys are unique. -/
theorem c10_duplicate_registration (l : List (Nat × Nat)) (h : Nat) (alive : Nat → Bool)
    (hw : registrarWellFormed l) (hnd : (l.map Prod.fst).Nodup) (ha : alive h = true) :
    registerHandler (registerHandler l h) h = registerHandler l h ∧
    (liveHandlers alive (registerHandler (registerHandler l h) h)).count h = 1 := by
  have hw1 : registrarWellFormed (registerHandler l h) := registerHandler_wf l h hw
  have hkey : (registerHandler l h).any (fun p => p.1 = h) = true :=
    registerHandler_key_mem l h
  have hidem : registerHandler (registerHandler l h) h = registerHandler l h :=
    odSetItem_id_of_mem (registerHandler l h) h hw1 hkey
  refine ⟨hidem, ?_⟩
  rw [hidem]
  have hnd1 : ((registerHandler l h).map Prod.fst).Nodup := by
    unfold registerHandler odSetItem
    split
    · have hkeys : (l.map fun p => if p.1 = h then ((h, h) : Nat × Nat) else p).map Prod.fst =
          l.map Prod.fst := by
        rw [List.map_map]
        apply List.map_congr_left
        intro p hp
        by_cases hph : p.1 = h
        · simp [hph]
        · simp [hph]
      rw [hkeys]
      exact hnd
    · rename_i hmem
      rw [List.map_append]
      rw [List.nodup_append]
      refine ⟨hnd, by simp, ?_⟩
      intro a hal hah
      have hah' : a = h := by simpa using hah
      subst hah'
      rcases List.mem_map.mp hal with ⟨q, hq, hqa⟩
      rw [List.any_eq_true] at hmem
      exact hmem ⟨q, hq, by simp [hqa]⟩
  exact count_liveHandlers_key (registerHandler l h) h alive hw1 hnd1 hkey ha

theorem c10_witness :
    registerHandler (registerHandler [(5, 5), (7, 7)] 7) 7 = registerHandler [(5, 5), (7, 7)] 7 ∧
    (liveHandlers (fun _ => true)
      (registerHandler (registerHandler [(5, 5), (7, 7)] 7) 7)).count 7 = 1 :=
  c10_duplicate_registration [(5, 5), (7, 7)] 7 (fun _ => true)
    (by unfold registrarWellFormed; decide) (by decide) rfl

